import Mathlib

/-!
Verification development for the game-catalog backend.

The development shallowly embeds the in-memory storage class (`MemStorage`,
from the storage module) and the cached route handlers (from `routes.ts`).
JavaScript `Map` objects are embedded as association lists in insertion
order, with `Map.get` / `Map.set` / `Map.delete` reproduced by `mapGet`,
`mapSet` and `mapDelete`.  Wall-clock reads (`Math.floor(Date.now() / 1000)`
and `new Date()`) become explicit `now` parameters, and the external
upstream fetch becomes an `Except` argument to the handler functions.
-/

namespace GameMagic

/-- JS `Map.get` on an association list kept in insertion order. -/
def mapGet {α β : Type} [DecidableEq α] : List (α × β) → α → Option β
  | [], _ => none
  | p :: ps, k => if p.1 = k then some p.2 else mapGet ps k

/-- JS `Map.set`: replace the value in place when the key is present,
append a fresh entry otherwise. -/
def mapSet {α β : Type} [DecidableEq α] (m : List (α × β)) (k : α) (v : β) :
    List (α × β) :=
  if (mapGet m k).isSome then
    m.map (fun p => if p.1 = k then (k, v) else p)
  else
    m ++ [(k, v)]

/-- JS `Map.delete`. -/
def mapDelete {α β : Type} [DecidableEq α] (m : List (α × β)) (k : α) :
    List (α × β) :=
  m.filter (fun p => decide (p.1 ≠ k))

/-- A cached upstream response.  `data` is the opaque serialized payload and
`timestamp` the expiry moment in unix seconds. -/
structure GameCache where
  id : Nat
  key : String
  data : String
  timestamp : Int
  deriving DecidableEq, Repr

/-- A stored user account.  `password` holds the (externally computed)
bcrypt hash, `favoriteGames` the denormalized list of favorite game ids. -/
structure User where
  id : Nat
  email : String
  username : String
  password : String
  createdAt : Int
  profilePicture : Option String
  favoriteGames : List Nat
  deriving DecidableEq, Repr

/-- A favorite row owned by one user. -/
structure Favorite where
  id : Nat
  userId : Nat
  gameId : Nat
  gameName : String
  gameImage : Option String
  addedAt : Int
  deriving DecidableEq, Repr

/-- Input record for `createUser`. -/
structure InsertUser where
  email : String
  username : String
  password : String
  profilePicture : Option String
  deriving DecidableEq, Repr

/-- Input record for `addFavorite`. -/
structure InsertFavorite where
  userId : Nat
  gameId : Nat
  gameName : String
  gameImage : Option String
  deriving DecidableEq, Repr

/-- The `MemStorage` state: three JS `Map`s plus the three id counters. -/
structure MemStorage where
  gameCache : List (String × GameCache)
  users : List (Nat × User)
  favorites : List (Nat × List Favorite)
  currentId : Nat
  userId : Nat
  favoriteId : Nat
  deriving DecidableEq, Repr

/-- The freshly constructed store (`new MemStorage()`). -/
def initialStorage : MemStorage :=
  { gameCache := [], users := [], favorites := [],
    currentId := 1, userId := 1, favoriteId := 1 }

/-- JS `x || null` on an optional string: the empty string is falsy. -/
def orNull (o : Option String) : Option String :=
  match o with
  | some s => if s = "" then none else some s
  | none => none

/-- `MemStorage.getGameCache`: look the key up; if the entry's expiry
timestamp is strictly before `now` it is deleted and `undefined` returned,
otherwise the live entry is returned. -/
def getGameCache (σ : MemStorage) (key : String) (now : Int) :
    Option GameCache × MemStorage :=
  match mapGet σ.gameCache key with
  | none => (none, σ)
  | some cachedItem =>
    if cachedItem.timestamp < now then
      (none, { σ with gameCache := mapDelete σ.gameCache key })
    else
      (some cachedItem, σ)

/-- `MemStorage.cacheGameData`: unconditionally store an entry under `key`
with a fresh id from `currentId`. -/
def cacheGameData (σ : MemStorage) (key : String) (data : String)
    (timestamp : Int) : GameCache × MemStorage :=
  let id := σ.currentId
  let cacheItem : GameCache := { id := id, key := key, data := data, timestamp := timestamp }
  (cacheItem, { σ with currentId := id + 1,
                       gameCache := mapSet σ.gameCache key cacheItem })

/-- `MemStorage.clearExpiredCache`: delete every entry whose expiry
timestamp is strictly before `now`. -/
def clearExpiredCache (σ : MemStorage) (now : Int) : MemStorage :=
  { σ with gameCache := σ.gameCache.filter (fun p => decide (¬ p.2.timestamp < now)) }

/-- `MemStorage.createUser`: hash the password (via the external `hash`
collaborator), store the new user under the next `userId`. -/
def createUser (σ : MemStorage) (userData : InsertUser)
    (hash : String → String) (now : Int) : User × MemStorage :=
  let newUser : User :=
    { id := σ.userId, email := userData.email, username := userData.username,
      password := hash userData.password, createdAt := now,
      profilePicture := orNull userData.profilePicture, favoriteGames := [] }
  (newUser, { σ with userId := σ.userId + 1,
                     users := mapSet σ.users newUser.id newUser })

/-- `MemStorage.getUserByEmail`: first user (in insertion order) whose
email matches. -/
def getUserByEmail (σ : MemStorage) (email : String) : Option User :=
  (σ.users.map (fun p => p.2)).find? (fun user => decide (user.email = email))

/-- `MemStorage.getUserByUsername`. -/
def getUserByUsername (σ : MemStorage) (username : String) : Option User :=
  (σ.users.map (fun p => p.2)).find? (fun user => decide (user.username = username))

/-- `MemStorage.getUserById`. -/
def getUserById (σ : MemStorage) (id : Nat) : Option User :=
  mapGet σ.users id

/-- `MemStorage.addFavorite`: append the new favorite to the user's list
(initializing it when absent) and, when the user exists, append the game id
to the user's mirrored `favoriteGames`. -/
def addFavorite (σ : MemStorage) (favoriteData : InsertFavorite) (now : Int) :
    Favorite × MemStorage :=
  let newFavorite : Favorite :=
    { id := σ.favoriteId, userId := favoriteData.userId,
      gameId := favoriteData.gameId, gameName := favoriteData.gameName,
      gameImage := orNull favoriteData.gameImage, addedAt := now }
  let favs0 :=
    if (mapGet σ.favorites favoriteData.userId).isSome then σ.favorites
    else mapSet σ.favorites favoriteData.userId []
  let userFavorites := (mapGet favs0 favoriteData.userId).getD []
  let favs1 := mapSet favs0 favoriteData.userId (userFavorites ++ [newFavorite])
  let users1 :=
    match mapGet σ.users favoriteData.userId with
    | some user =>
      mapSet σ.users user.id
        { user with favoriteGames := user.favoriteGames ++ [favoriteData.gameId] }
    | none => σ.users
  (newFavorite, { σ with favoriteId := σ.favoriteId + 1,
                         favorites := favs1, users := users1 })

/-- `MemStorage.removeFavorite`: filter every favorite with the given game
id out of the user's list; report whether anything was removed; on removal
also filter the game id out of the user's mirrored `favoriteGames`. -/
def removeFavorite (σ : MemStorage) (userId gameId : Nat) :
    Bool × MemStorage :=
  match mapGet σ.favorites userId with
  | none => (false, σ)
  | some userFavorites =>
    let updatedFavorites := userFavorites.filter (fun fav => decide (fav.gameId ≠ gameId))
    if updatedFavorites.length = userFavorites.length then
      (false, σ)
    else
      let favs1 := mapSet σ.favorites userId updatedFavorites
      let users1 :=
        match mapGet σ.users userId with
        | some user =>
          mapSet σ.users user.id
            { user with favoriteGames := user.favoriteGames.filter (fun i => decide (i ≠ gameId)) }
        | none => σ.users
      (true, { σ with favorites := favs1, users := users1 })

/-- `MemStorage.getUserFavorites`: the user's list, or `[]`. -/
def getUserFavorites (σ : MemStorage) (userId : Nat) : List Favorite :=
  (mapGet σ.favorites userId).getD []

/-- The optional query parameters of the listing endpoint
`GET /api/games`; `none` is an unset parameter. -/
structure ListingParams where
  search : Option String
  page : Option String
  page_size : Option String
  platforms : Option String
  genres : Option String
  ordering : Option String
  esrb_rating : Option String
  deriving DecidableEq, Repr

/-- Lowercase hex digit, as produced by `toString(16)`. -/
def hexDig (n : Nat) : Char :=
  if n < 10 then Char.ofNat (48 + n) else Char.ofNat (87 + n)

/-- Value of a lowercase hex digit. -/
def hexVal (c : Char) : Option Nat :=
  if 48 ≤ c.toNat ∧ c.toNat ≤ 57 then some (c.toNat - 48)
  else if 97 ≤ c.toNat ∧ c.toNat ≤ 102 then some (c.toNat - 87)
  else none

/-- `JSON.stringify` escaping of one character inside a string literal:
quote and backslash are backslash-escaped, the named control characters
use their short escapes, the remaining control characters use `\u00XX`,
and every other character stands for itself. -/
def escChar (c : Char) : List Char :=
  if c = '"' then ['\\', '"']
  else if c = '\\' then ['\\', '\\']
  else if c = '\x08' then ['\\', 'b']
  else if c = '\x09' then ['\\', 't']
  else if c = '\x0a' then ['\\', 'n']
  else if c = '\x0c' then ['\\', 'f']
  else if c = '\x0d' then ['\\', 'r']
  else if c.toNat < 32 then ['\\', 'u', '0', '0', hexDig (c.toNat / 16), hexDig (c.toNat % 16)]
  else [c]

/-- `JSON.stringify` escaping of a string body. -/
def escape : List Char → List Char
  | [] => []
  | c :: cs => escChar c ++ escape cs

/-- A JSON string literal: quote, escaped body, quote. -/
def jstr (s : List Char) : List Char := '"' :: (escape s ++ ['"'])

/-- The characters `{"path":"/games"` opening the stringified key object. -/
def headLit : List Char :=
  ['\x7b', '"', 'p', 'a', 't', 'h', '"', ':', '"', '/', 'g', 'a', 'm', 'e', 's', '"']

/-- The characters `,"search":`. -/
def searchPre : List Char := [',', '"', 's', 'e', 'a', 'r', 'c', 'h', '"', ':']

/-- The characters `,"page":`. -/
def pagePre : List Char := [',', '"', 'p', 'a', 'g', 'e', '"', ':']

/-- The characters `,"page_size":`. -/
def pageSizePre : List Char :=
  [',', '"', 'p', 'a', 'g', 'e', '_', 's', 'i', 'z', 'e', '"', ':']

/-- The characters `,"platforms":`. -/
def platformsPre : List Char :=
  [',', '"', 'p', 'l', 'a', 't', 'f', 'o', 'r', 'm', 's', '"', ':']

/-- The characters `,"genres":`. -/
def genresPre : List Char := [',', '"', 'g', 'e', 'n', 'r', 'e', 's', '"', ':']

/-- The characters `,"ordering":`. -/
def orderingPre : List Char :=
  [',', '"', 'o', 'r', 'd', 'e', 'r', 'i', 'n', 'g', '"', ':']

/-- The characters `,"esrb_rating":`. -/
def esrbPre : List Char :=
  [',', '"', 'e', 's', 'r', 'b', '_', 'r', 'a', 't', 'i', 'n', 'g', '"', ':']

/-- A property whose value is an optional string: `JSON.stringify` omits
the property entirely when the value is `undefined`, and emits the quoted
escaped string otherwise. -/
def optField (pre : List Char) : Option String → List Char
  | none => []
  | some s => pre ++ jstr s.data

/-- A property with a numeric default from destructuring (`page = 1`,
`page_size = 20`): the bare number when the query parameter is unset, the
quoted string otherwise. -/
def defField (pre : List Char) (dflt : List Char) : Option String → List Char
  | none => pre ++ dflt
  | some s => pre ++ jstr s.data

/-- The characters of
`JSON.stringify({ path: "/games", search, page, page_size, platforms, genres, ordering, esrb_rating })`
as computed by the listing handler. -/
def listingKeyChars (q : ListingParams) : List Char :=
  headLit
    ++ optField searchPre q.search
    ++ defField pagePre ['1'] q.page
    ++ defField pageSizePre ['2', '0'] q.page_size
    ++ optField platformsPre q.platforms
    ++ optField genresPre q.genres
    ++ optField orderingPre q.ordering
    ++ optField esrbPre q.esrb_rating
    ++ ['\x7d']

/-- The listing cache key of `GET /api/games`. -/
def listingCacheKey (q : ListingParams) : String := String.mk (listingKeyChars q)

/-- Strip an expected literal prefix. -/
def dropLit : List Char → List Char → Option (List Char)
  | [], input => some input
  | _ :: _, [] => none
  | c :: ls, x :: xs => if x = c then dropLit ls xs else none

/-- Inverse of `escape`: parse the body of a JSON string up to the closing
quote, returning the decoded body and the rest of the input. -/
def parseJStr : List Char → Option (List Char × List Char)
  | [] => none
  | c :: rest =>
    if c = '"' then some ([], rest)
    else if c = '\\' then
      match rest with
      | [] => none
      | e :: r =>
        if e = '"' then (parseJStr r).map (fun p => ('"' :: p.1, p.2))
        else if e = '\\' then (parseJStr r).map (fun p => ('\\' :: p.1, p.2))
        else if e = 'b' then (parseJStr r).map (fun p => ('\x08' :: p.1, p.2))
        else if e = 't' then (parseJStr r).map (fun p => ('\x09' :: p.1, p.2))
        else if e = 'n' then (parseJStr r).map (fun p => ('\x0a' :: p.1, p.2))
        else if e = 'f' then (parseJStr r).map (fun p => ('\x0c' :: p.1, p.2))
        else if e = 'r' then (parseJStr r).map (fun p => ('\x0d' :: p.1, p.2))
        else if e = 'u' then
          match r with
          | h0 :: h1 :: h2 :: h3 :: r2 =>
            if h0 = '0' ∧ h1 = '0' then
              match hexVal h2, hexVal h3 with
              | some a, some b =>
                (parseJStr r2).map (fun p => (Char.ofNat (16 * a + b) :: p.1, p.2))
              | _, _ => none
            else none
          | _ => none
        else none
    else (parseJStr rest).map (fun p => (c :: p.1, p.2))

/-- Inverse of `optField`. -/
def parseOptField (pre : List Char) (input : List Char) :
    Option (Option (List Char) × List Char) :=
  match dropLit (pre ++ ['"']) input with
  | some rest => (parseJStr rest).map (fun p => (some p.1, p.2))
  | none => some (none, input)

/-- Inverse of `defField`. -/
def parseDefField (pre : List Char) (dflt : List Char) (input : List Char) :
    Option (Option (List Char) × List Char) :=
  match dropLit pre input with
  | none => none
  | some rest =>
    match rest with
    | [] => none
    | c :: rest2 =>
      if c = '"' then (parseJStr rest2).map (fun p => (some p.1, p.2))
      else
        match dropLit dflt rest with
        | some r3 => some (none, r3)
        | none => none

/-- Inverse of `listingKeyChars`: recover the listing parameters from a
cache key. -/
def parseListingKey (input : List Char) : Option ListingParams :=
  match dropLit headLit input with
  | none => none
  | some r0 =>
    match parseOptField searchPre r0 with
    | none => none
    | some (se, r1) =>
      match parseDefField pagePre ['1'] r1 with
      | none => none
      | some (pa, r2) =>
        match parseDefField pageSizePre ['2', '0'] r2 with
        | none => none
        | some (ps, r3) =>
          match parseOptField platformsPre r3 with
          | none => none
          | some (pl, r4) =>
            match parseOptField genresPre r4 with
            | none => none
            | some (ge, r5) =>
              match parseOptField orderingPre r5 with
              | none => none
              | some (od, r6) =>
                match parseOptField esrbPre r6 with
                | none => none
                | some (es, r7) =>
                  match r7 with
                  | ['\x7d'] =>
                    some { search := se.map String.mk, page := pa.map String.mk,
                           page_size := ps.map String.mk, platforms := pl.map String.mk,
                           genres := ge.map String.mk, ordering := od.map String.mk,
                           esrb_rating := es.map String.mk }
                  | _ => none

/-- An HTTP response of a cached endpoint: `ok` carries the JSON payload,
`err` a status code and message. -/
inductive ApiResponse where
  | ok (data : String)
  | err (status : Nat) (msg : String)
  deriving DecidableEq, Repr

/-- The `GET /api/games` handler: derive the cache key, serve a cache hit,
otherwise consult the upstream fetch result; on success cache for 3600
seconds and answer the payload, on failure answer 500 without caching. -/
def listGames (σ : MemStorage) (q : ListingParams) (fetch : Except String String)
    (now : Int) : ApiResponse × MemStorage :=
  match getGameCache σ (listingCacheKey q) now with
  | (some cachedData, σ1) => (.ok cachedData.data, σ1)
  | (none, σ1) =>
    match fetch with
    | .error _ => (.err 500 "Failed to fetch games", σ1)
    | .ok payload =>
      (.ok payload, (cacheGameData σ1 (listingCacheKey q) payload (now + 3600)).2)

/-- The `GET /api/games/:id` handler: key `/games/` + id, 86400-second
TTL. -/
def getGameDetails (σ : MemStorage) (id : String) (fetch : Except String String)
    (now : Int) : ApiResponse × MemStorage :=
  match getGameCache σ ("/games/" ++ id) now with
  | (some cachedData, σ1) => (.ok cachedData.data, σ1)
  | (none, σ1) =>
    match fetch with
    | .error _ => (.err 500 "Failed to fetch game details", σ1)
    | .ok payload =>
      (.ok payload, (cacheGameData σ1 ("/games/" ++ id) payload (now + 86400)).2)

/-- The `GET /api/games/search` handler: 400 when the query is missing or
empty (falsy), else key `/search/` + query, 1800-second TTL. -/
def searchGames (σ : MemStorage) (query : Option String) (fetch : Except String String)
    (now : Int) : ApiResponse × MemStorage :=
  match query with
  | none => (.err 400 "Search query is required", σ)
  | some qs =>
    if qs = "" then (.err 400 "Search query is required", σ)
    else
      match getGameCache σ ("/search/" ++ qs) now with
      | (some cachedData, σ1) => (.ok cachedData.data, σ1)
      | (none, σ1) =>
        match fetch with
        | .error _ => (.err 500 "Failed to search games", σ1)
        | .ok payload =>
          (.ok payload, (cacheGameData σ1 ("/search/" ++ qs) payload (now + 1800)).2)

/-- A store-mutating call, used to describe the states reachable from a
fresh store. -/
inductive Op where
  | createUserOp (userData : InsertUser) (hash : String → String) (now : Int)
  | addFavoriteOp (favoriteData : InsertFavorite) (now : Int)
  | removeFavoriteOp (userId gameId : Nat)

/-- Apply one call to the store, keeping only the state. -/
def applyOp (σ : MemStorage) : Op → MemStorage
  | .createUserOp d hash now => (createUser σ d hash now).2
  | .addFavoriteOp d now => (addFavorite σ d now).2
  | .removeFavoriteOp u g => (removeFavorite σ u g).2

/-- Run a sequence of calls from a given state. -/
def runOps (σ : MemStorage) : List Op → MemStorage
  | [] => σ
  | op :: rest => runOps (applyOp σ op) rest

/-- Check that every `addFavorite` in the sequence names an
already-created user at the moment it runs. -/
def okOps : MemStorage → List Op → Bool
  | _, [] => true
  | σ, op :: rest =>
    (match op with
     | .addFavoriteOp d _ => (mapGet σ.users d.userId).isSome
     | _ => true) && okOps (applyOp σ op) rest

/-- Keys of an association list, in insertion order. -/
def keys {α β : Type} (m : List (α × β)) : List α := m.map (fun p => p.1)

/-- Structural invariant on the users map: keys strictly increase in
insertion order, each user record carries its key as `id`, and every key is
below the next fresh `userId`. -/
def UsersInv (σ : MemStorage) : Prop :=
  List.Pairwise (fun a b => a < b) (keys σ.users)
  ∧ ∀ p ∈ σ.users, p.2.id = p.1 ∧ p.1 < σ.userId

/-- Mirror invariant: every favorites key refers to a stored user, and each
user's `favoriteGames` equals, element for element and in order, the game
ids of that user's favorite rows. -/
def MirrorInv (σ : MemStorage) : Prop :=
  (∀ q ∈ σ.favorites, (mapGet σ.users q.1).isSome)
  ∧ ∀ p ∈ σ.users, p.2.favoriteGames
      = ((mapGet σ.favorites p.1).getD []).map (fun f => f.gameId)

/-- Sample call sequence: create a user, then add one favorite for them. -/
def opsSample : List Op :=
  [Op.createUserOp { email := "a@b", username := "u", password := "pw",
                     profilePicture := none } (fun s => s) 0,
   Op.addFavoriteOp { userId := 1, gameId := 7, gameName := "G",
                      gameImage := none } 0]

/-- Sample call sequence creating two users with the same email. -/
def opsDup : List Op :=
  [Op.createUserOp { email := "a@b", username := "u1", password := "p1",
                     profilePicture := none } (fun s => s) 0,
   Op.createUserOp { email := "a@b", username := "u2", password := "p2",
                     profilePicture := none } (fun s => s) 0]

/-- A store holding an already-expired listing cache entry (expiry 0) for
the all-unset listing parameters. -/
def staleListingStore : MemStorage :=
  { initialStorage with
    gameCache := [(listingCacheKey ⟨none, none, none, none, none, none, none⟩,
                   { id := 1,
                     key := listingCacheKey ⟨none, none, none, none, none, none, none⟩,
                     data := "old", timestamp := 0 })] }

/-- Sample store for the favorites round trip: one user with id 1 and no
favorites yet. -/
def c7Store : MemStorage :=
  { initialStorage with
    users := [(1, { id := 1, email := "e@x.y", username := "w", password := "p",
                    createdAt := 0, profilePicture := none, favoriteGames := [] })] }

/-- Sample store with two favorites for the same game (game id 5) owned by
user 1, whose mirrored `favoriteGames` accordingly holds 5 twice. -/
def removeSampleStore : MemStorage :=
  { initialStorage with
    users := [(1, { id := 1, email := "a@b.c", username := "u", password := "h",
                    createdAt := 0, profilePicture := none, favoriteGames := [5, 5] })],
    favorites := [(1, [{ id := 1, userId := 1, gameId := 5, gameName := "A",
                         gameImage := none, addedAt := 0 },
                       { id := 2, userId := 1, gameId := 5, gameName := "B",
                         gameImage := none, addedAt := 0 }])] }

/-! ### Association-list lemmas -/

theorem mapGet_map_replace {α β : Type} [DecidableEq α] (m : List (α × β)) (k : α) (v : β) :
    mapGet (m.map (fun p => if p.1 = k then (k, v) else p)) k
      = (mapGet m k).map (fun _ => v) := by
  induction m with
  | nil => rfl
  | cons p ps ih =>
    by_cases h : p.1 = k
    · simp [mapGet, h]
    · simp [mapGet, h, ih]

theorem mapGet_map_replace_ne {α β : Type} [DecidableEq α] (m : List (α × β))
    (k k2 : α) (v : β) (hne : k ≠ k2) :
    mapGet (m.map (fun p => if p.1 = k then (k, v) else p)) k2 = mapGet m k2 := by
  induction m with
  | nil => rfl
  | cons p ps ih =>
    by_cases h : p.1 = k
    · simp [mapGet, h, hne, ih]
    · simp [mapGet, h, ih]

theorem mapGet_append {α β : Type} [DecidableEq α] (m l : List (α × β)) (k2 : α) :
    mapGet (m ++ l) k2
      = match mapGet m k2 with
        | some w => some w
        | none => mapGet l k2 := by
  induction m with
  | nil => rfl
  | cons p ps ih =>
    by_cases h : p.1 = k2
    · simp [mapGet, h]
    · simp [mapGet, h, ih]

theorem mapGet_mapSet_self {α β : Type} [DecidableEq α] (m : List (α × β)) (k : α) (v : β) :
    mapGet (mapSet m k v) k = some v := by
  unfold mapSet
  by_cases h : (mapGet m k).isSome
  · rw [if_pos h, mapGet_map_replace]
    obtain ⟨w, hw⟩ := Option.isSome_iff_exists.mp h
    rw [hw]; rfl
  · rw [if_neg h, mapGet_append]
    rw [Option.not_isSome_iff_eq_none] at h
    simp [h, mapGet]

theorem mapGet_mapSet_ne {α β : Type} [DecidableEq α] (m : List (α × β)) (k k2 : α) (v : β)
    (hne : k ≠ k2) :
    mapGet (mapSet m k v) k2 = mapGet m k2 := by
  unfold mapSet
  by_cases h : (mapGet m k).isSome
  · rw [if_pos h, mapGet_map_replace_ne _ _ _ _ hne]
  · rw [if_neg h, mapGet_append]
    cases hm : mapGet m k2 with
    | some w => rfl
    | none => simp [mapGet, hne]

theorem mapGet_mapDelete_self {α β : Type} [DecidableEq α] (m : List (α × β)) (k : α) :
    mapGet (mapDelete m k) k = none := by
  induction m with
  | nil => rfl
  | cons p ps ih =>
    simp only [mapDelete, List.filter_cons, decide_not] at ih ⊢
    by_cases h : p.1 = k
    · simp [h, ih]
    · simp [h, mapGet, ih]

/-! ### Claim C1: lazy expiry on read -/

/-- C1 (counterexample): the claim says an entry with `expiresAt <= now` is
deleted and absent returned, so a `put` with a TTL of zero followed
immediately by a `get` must return absent.  In the code the expiry test is
`timestamp < now` (strict), so at `expiresAt = now` the entry is returned
live: a put at expiry 100 read at moment 100 yields the entry, not absent. -/
theorem c1_counterexample :
    (getGameCache ((cacheGameData initialStorage "k" "v" 100).2) "k" 100).1
      = some { id := 1, key := "k", data := "v", timestamp := 100 } := by
  decide

/-- C1 (amended): an entry whose `expiresAt` is strictly before `now` is
deleted as a side effect of `getGameCache` and absent is returned, while an
entry with `expiresAt = now` or later is returned live; in particular a get
immediately after a put whose expiry lies strictly in the past returns
absent, and a get after a put whose expiry equals the current moment (TTL
of zero) returns the stored entry. -/
theorem c1_lazy_expiry (σ : MemStorage) (key : String) (now : Int) (entry : GameCache)
    (h : mapGet σ.gameCache key = some entry) :
    (entry.timestamp < now →
      getGameCache σ key now
        = (none, { σ with gameCache := mapDelete σ.gameCache key }))
    ∧ (now ≤ entry.timestamp → getGameCache σ key now = (some entry, σ))
    ∧ (∀ v ts, ts < now →
        (getGameCache ((cacheGameData σ key v ts).2) key now).1 = none)
    ∧ (∀ v, (getGameCache ((cacheGameData σ key v now).2) key now).1
        = some (cacheGameData σ key v now).1) := by
  refine ⟨fun hlt => ?_, fun hle => ?_, fun v ts hts => ?_, fun v => ?_⟩
  · unfold getGameCache
    rw [h]
    simp [hlt]
  · unfold getGameCache
    rw [h]
    simp [not_lt.mpr hle]
  · unfold getGameCache
    simp only [cacheGameData, mapGet_mapSet_self]
    simp [hts]
  · unfold getGameCache
    simp only [cacheGameData, mapGet_mapSet_self]
    simp

/-- Witness for C1 (amended): a stored entry expiring at 50 read at moment
100 is deleted and absent returned. -/
theorem c1_lazy_expiry_witness :
    getGameCache ((cacheGameData initialStorage "k" "v" 50).2) "k" 100
      = (none, { (cacheGameData initialStorage "k" "v" 50).2 with
                  gameCache := mapDelete ((cacheGameData initialStorage "k" "v" 50).2).gameCache "k" }) :=
  (c1_lazy_expiry ((cacheGameData initialStorage "k" "v" 50).2) "k" 100
    { id := 1, key := "k", data := "v", timestamp := 50 } (by decide)).1 (by decide)

/-! ### Claim C2: TTL semantics of put-then-get -/

/-- C2: after `cacheGameData k v (now + t)` with `t ≥ 0`, `getGameCache k`
at any moment strictly before the expiry returns the stored entry holding
`v`; at any moment strictly after the expiry it returns absent, and after
that expiring read the key stays absent at every later moment (no
resurrection) until a new put. -/
theorem c2_ttl (σ : MemStorage) (k v : String) (now t m : Int) (ht : 0 ≤ t) :
    (m < now + t →
      getGameCache ((cacheGameData σ k v (now + t)).2) k m
        = (some (cacheGameData σ k v (now + t)).1, (cacheGameData σ k v (now + t)).2)
      ∧ ((cacheGameData σ k v (now + t)).1).data = v)
    ∧ (now + t < m →
      (getGameCache ((cacheGameData σ k v (now + t)).2) k m).1 = none
      ∧ ∀ m2 : Int,
        (getGameCache ((getGameCache ((cacheGameData σ k v (now + t)).2) k m).2) k m2).1
          = none) := by
  constructor
  · intro hm
    constructor
    · unfold getGameCache
      simp only [cacheGameData, mapGet_mapSet_self]
      simp [not_lt.mpr (le_of_lt hm)]
    · rfl
  · intro hm
    constructor
    · unfold getGameCache
      simp only [cacheGameData, mapGet_mapSet_self]
      simp [hm]
    · intro m2
      unfold getGameCache
      simp only [cacheGameData, mapGet_mapSet_self]
      simp only [if_pos hm]
      simp [mapGet_mapDelete_self]

/-- Witness for C2: put at expiry `10 + 5`; a read at moment 12 returns the
entry, a read at moment 20 returns absent. -/
theorem c2_ttl_witness :
    (getGameCache ((cacheGameData initialStorage "k" "v" (10 + 5)).2) "k" 12).1
      = some (cacheGameData initialStorage "k" "v" (10 + 5)).1
    ∧ (getGameCache ((cacheGameData initialStorage "k" "v" (10 + 5)).2) "k" 20).1 = none :=
  ⟨by rw [((c2_ttl initialStorage "k" "v" 10 5 12 (by decide)).1 (by decide)).1],
   ((c2_ttl initialStorage "k" "v" 10 5 20 (by decide)).2 (by decide)).1⟩

/-! ### Claim C3: sweep -/

/-- C3 (counterexample): the claim says that after the sweep no entry with
`expiresAt <= now` remains, but the code deletes only entries with
`timestamp < now` (strict): an entry expiring exactly at the sweep moment
survives unchanged. -/
theorem c3_counterexample :
    (clearExpiredCache
        { initialStorage with gameCache := [("k", { id := 1, key := "k", data := "v", timestamp := 100 })] }
        100).gameCache
      = [("k", { id := 1, key := "k", data := "v", timestamp := 100 })] := by
  decide

/-- C3 (amended): after `clearExpiredCache` at moment `now` the cache
contains no entry whose `expiresAt` is strictly before `now`; every entry
with `expiresAt ≥ now` is still present and unchanged (same key, id,
payload and timestamp), and no entry is added. -/
theorem c3_sweep (σ : MemStorage) (now : Int) :
    (∀ p ∈ (clearExpiredCache σ now).gameCache, now ≤ p.2.timestamp)
    ∧ (∀ p ∈ σ.gameCache, now ≤ p.2.timestamp → p ∈ (clearExpiredCache σ now).gameCache)
    ∧ (∀ p ∈ (clearExpiredCache σ now).gameCache, p ∈ σ.gameCache) := by
  refine ⟨fun p hp => ?_, fun p hp hle => ?_, fun p hp => ?_⟩
  · rcases List.mem_filter.mp hp with ⟨-, hcond⟩
    simpa [not_lt] using of_decide_eq_true hcond
  · exact List.mem_filter.mpr ⟨hp, by simpa [not_lt] using hle⟩
  · exact (List.mem_filter.mp hp).1

/-- Witness for C3: sweeping a store holding an expired entry (expiry 5)
and a live one (expiry 100) at moment 50 keeps the live entry unchanged,
and the kept entry was already present. -/
theorem c3_sweep_witness :
    ("b", ({ id := 2, key := "b", data := "y", timestamp := 100 } : GameCache))
      ∈ (clearExpiredCache
          { initialStorage with
            gameCache := [("a", { id := 1, key := "a", data := "x", timestamp := 5 }),
                          ("b", { id := 2, key := "b", data := "y", timestamp := 100 })] }
          50).gameCache
    ∧ (50 : Int) ≤ ({ id := 2, key := "b", data := "y", timestamp := 100 } : GameCache).timestamp :=
  ⟨(c3_sweep
      { initialStorage with
        gameCache := [("a", { id := 1, key := "a", data := "x", timestamp := 5 }),
                      ("b", { id := 2, key := "b", data := "y", timestamp := 100 })] }
      50).2.1 ("b", { id := 2, key := "b", data := "y", timestamp := 100 })
      (by decide) (by decide),
   (c3_sweep
      { initialStorage with
        gameCache := [("a", { id := 1, key := "a", data := "x", timestamp := 5 }),
                      ("b", { id := 2, key := "b", data := "y", timestamp := 100 })] }
      50).1 ("b", { id := 2, key := "b", data := "y", timestamp := 100 }) (by decide)⟩

/-! ### Favorites lemmas -/

theorem mapGet_mem {α β : Type} [DecidableEq α] (m : List (α × β)) (k : α) (v : β)
    (h : mapGet m k = some v) : (k, v) ∈ m := by
  induction m with
  | nil => cases h
  | cons p ps ih =>
    by_cases hp : p.1 = k
    · rw [mapGet, if_pos hp] at h
      refine List.mem_cons.mpr (Or.inl ?_)
      rw [Prod.ext_iff]
      exact ⟨hp.symm, (Option.some_inj.mp h).symm⟩
    · rw [mapGet, if_neg hp] at h
      exact List.mem_cons_of_mem _ (ih h)

/-- The favorites list stored after `addFavorite` is the old list with the
new favorite appended. -/
theorem addFavorite_favorites (σ : MemStorage) (d : InsertFavorite) (now : Int) :
    mapGet (addFavorite σ d now).2.favorites d.userId
      = some (getUserFavorites σ d.userId ++ [(addFavorite σ d now).1]) := by
  by_cases h : (mapGet σ.favorites d.userId).isSome
  · simp [addFavorite, getUserFavorites, h, mapGet_mapSet_self]
  · simp [addFavorite, getUserFavorites, h, mapGet_mapSet_self,
      Option.not_isSome_iff_eq_none.mp h]

/-- `removeFavorite` characterized on a store whose favorites map holds the
list `l` for the user. -/
theorem removeFavorite_eq (σ : MemStorage) (u g : Nat) (l : List Favorite)
    (hl : mapGet σ.favorites u = some l) :
    removeFavorite σ u g
      = if (l.filter (fun fav => decide (fav.gameId ≠ g))).length = l.length
        then (false, σ)
        else (true, { σ with
            favorites := mapSet σ.favorites u (l.filter (fun fav => decide (fav.gameId ≠ g))),
            users := match mapGet σ.users u with
              | some user => mapSet σ.users user.id
                  { user with favoriteGames := user.favoriteGames.filter (fun i => decide (i ≠ g)) }
              | none => σ.users }) := by
  unfold removeFavorite
  rw [hl]

/-! ### Claim C7: favorites round-trip -/

/-- C7: for a user `u` that exists and has no favorite with game id `g`,
after `addFavorite (u, g, name, null)` the user's favorites contain exactly
one entry with game id `g`; `removeFavorite u g` then returns true, a
subsequent `getUserFavorites u` contains no entry with game id `g`, and a
second `removeFavorite u g` returns false. -/
theorem c7_round_trip (σ : MemStorage) (u g : Nat) (name : String) (now : Int)
    (hu : (mapGet σ.users u).isSome)
    (hg : ∀ f ∈ getUserFavorites σ u, f.gameId ≠ g) :
    ((getUserFavorites (addFavorite σ ⟨u, g, name, none⟩ now).2 u).filter
        (fun f => decide (f.gameId = g))).length = 1
    ∧ (removeFavorite (addFavorite σ ⟨u, g, name, none⟩ now).2 u g).1 = true
    ∧ (∀ f ∈ getUserFavorites (removeFavorite (addFavorite σ ⟨u, g, name, none⟩ now).2 u g).2 u,
        f.gameId ≠ g)
    ∧ (removeFavorite (removeFavorite (addFavorite σ ⟨u, g, name, none⟩ now).2 u g).2 u g).1
        = false := by
  have hfavs := addFavorite_favorites σ ⟨u, g, name, none⟩ now
  have hfavid : (addFavorite σ ⟨u, g, name, none⟩ now).1.gameId = g := rfl
  have hkeep : (getUserFavorites σ u).filter (fun f => decide (f.gameId ≠ g))
      = getUserFavorites σ u :=
    List.filter_eq_self.mpr (fun f hf => by simpa using hg f hf)
  have hdrop : (getUserFavorites σ u).filter (fun f => decide (f.gameId = g)) = [] :=
    List.filter_eq_nil_iff.mpr (fun f hf => by simpa using hg f hf)
  have hupd : ((getUserFavorites σ u ++ [(addFavorite σ ⟨u, g, name, none⟩ now).1]).filter
      (fun fav => decide (fav.gameId ≠ g))) = getUserFavorites σ u := by
    rw [List.filter_append, hkeep]
    simp [hfavid]
  have hlen : ¬ (((getUserFavorites σ u ++ [(addFavorite σ ⟨u, g, name, none⟩ now).1]).filter
      (fun fav => decide (fav.gameId ≠ g))).length
        = (getUserFavorites σ u ++ [(addFavorite σ ⟨u, g, name, none⟩ now).1]).length) := by
    rw [hupd]
    simp
  have hrem := removeFavorite_eq (addFavorite σ ⟨u, g, name, none⟩ now).2 u g _ hfavs
  rw [if_neg hlen] at hrem
  rw [hupd] at hrem
  have hfavs2 : mapGet (removeFavorite (addFavorite σ ⟨u, g, name, none⟩ now).2 u g).2.favorites u
      = some (getUserFavorites σ u) := by
    rw [hrem]
    exact mapGet_mapSet_self (addFavorite σ ⟨u, g, name, none⟩ now).2.favorites u
      (getUserFavorites σ u)
  refine ⟨?_, ?_, ?_, ?_⟩
  · rw [getUserFavorites, hfavs, Option.getD_some, List.filter_append, hdrop]
    simp [hfavid]
  · rw [hrem]
  · intro f hf
    rw [getUserFavorites, hfavs2, Option.getD_some] at hf
    exact hg f hf
  · have hrem2 := removeFavorite_eq (removeFavorite (addFavorite σ ⟨u, g, name, none⟩ now).2 u g).2
      u g _ hfavs2
    rw [if_pos (by rw [hkeep])] at hrem2
    rw [hrem2]

/-- Witness for C7: a fresh user with id 1 and an empty favorites list goes
through the round trip with game id 7. -/
theorem c7_round_trip_witness :
    ((getUserFavorites (addFavorite c7Store ⟨1, 7, "Zelda", none⟩ 3).2 1).filter
        (fun f => decide (f.gameId = 7))).length = 1
    ∧ (removeFavorite (addFavorite c7Store ⟨1, 7, "Zelda", none⟩ 3).2 1 7).1 = true
    ∧ (removeFavorite (removeFavorite (addFavorite c7Store ⟨1, 7, "Zelda", none⟩ 3).2 1 7).2 1 7).1
        = false :=
  ⟨(c7_round_trip c7Store 1 7 "Zelda" 3 (by decide) (by decide)).1,
   (c7_round_trip c7Store 1 7 "Zelda" 3 (by decide) (by decide)).2.1,
   (c7_round_trip c7Store 1 7 "Zelda" 3 (by decide) (by decide)).2.2.2⟩

/-! ### Claim C8: removeFavorite removes all matches -/

/-- C8 (counterexample): the claim says that when the user's list holds
more than one favorite with the given game id, only the first matching
favorite is removed.  With two favorites for game 5 the code's `filter`
removes both, leaving an empty list instead of the second favorite. -/
theorem c8_counterexample :
    (removeFavorite removeSampleStore 1 5).1 = true
    ∧ getUserFavorites (removeFavorite removeSampleStore 1 5).2 1 = []
    ∧ ({ id := 2, userId := 1, gameId := 5, gameName := "B", gameImage := none,
         addedAt := 0 } : Favorite)
        ∉ getUserFavorites (removeFavorite removeSampleStore 1 5).2 1 := by
  refine ⟨by decide, by decide, by decide⟩

/-- C8 (amended): `removeFavorite userId gameId` removes every favorite
matching the game id from that user's list (not just the first), returns
false as a no-op when no favorite matched and true when at least one was
removed, and on removal also filters every occurrence of the game id out of
the user's mirrored `favoriteGames` list (for stores whose user records
carry their own key as id, as all reachable stores do). -/
theorem c8_remove_all (σ : MemStorage) (u g : Nat)
    (hid : ∀ p ∈ σ.users, p.2.id = p.1) :
    ((removeFavorite σ u g).1 = true ↔ ∃ f ∈ getUserFavorites σ u, f.gameId = g)
    ∧ ((removeFavorite σ u g).1 = false → (removeFavorite σ u g).2 = σ)
    ∧ ((removeFavorite σ u g).1 = true →
        getUserFavorites (removeFavorite σ u g).2 u
          = (getUserFavorites σ u).filter (fun f => decide (f.gameId ≠ g))
        ∧ mapGet (removeFavorite σ u g).2.users u
          = (mapGet σ.users u).map
              (fun user => { user with
                favoriteGames := user.favoriteGames.filter (fun i => decide (i ≠ g)) })) := by
  cases hm : mapGet σ.favorites u with
  | none =>
    have hrem : removeFavorite σ u g = (false, σ) := by
      unfold removeFavorite
      rw [hm]
    rw [hrem]
    refine ⟨?_, fun _ => rfl, fun h => by cases h⟩
    simp [getUserFavorites, hm]
  | some l =>
    have hrem := removeFavorite_eq σ u g l hm
    have hcond : ((l.filter (fun fav => decide (fav.gameId ≠ g))).length = l.length)
        ↔ ∀ f ∈ l, f.gameId ≠ g := by
      rw [List.filter_length_eq_length]
      constructor
      · intro h f hf
        simpa using h f hf
      · intro h f hf
        simpa using h f hf
    have hold : getUserFavorites σ u = l := by
      rw [getUserFavorites, hm, Option.getD_some]
    by_cases hc : (l.filter (fun fav => decide (fav.gameId ≠ g))).length = l.length
    · rw [if_pos hc] at hrem
      rw [hrem, hold]
      refine ⟨?_, fun _ => rfl, fun h => by cases h⟩
      constructor
      · intro h
        cases h
      · rintro ⟨f, hf, hfg⟩
        exact absurd hfg (hcond.mp hc f hf)
    · rw [if_neg hc] at hrem
      rw [hrem, hold]
      refine ⟨?_, ?_, fun _ => ⟨?_, ?_⟩⟩
      · constructor
        · intro _
          by_contra hne
          push_neg at hne
          exact hc (hcond.mpr fun f hf => hne f hf)
        · intro _
          rfl
      · intro h
        cases h
      · simp [getUserFavorites, mapGet_mapSet_self]
      · cases hu : mapGet σ.users u with
        | none => simp [hu]
        | some user =>
          have huid : user.id = u := hid (u, user) (mapGet_mem σ.users u user hu)
          simp [huid, mapGet_mapSet_self]

/-- Witness for C8 (amended): removing game 5 for user 1 empties both the
favorites list and the mirrored `favoriteGames` of the sample store. -/
theorem c8_remove_all_witness :
    getUserFavorites (removeFavorite removeSampleStore 1 5).2 1
      = (getUserFavorites removeSampleStore 1).filter (fun f => decide (f.gameId ≠ 5))
    ∧ mapGet (removeFavorite removeSampleStore 1 5).2.users 1
      = (mapGet removeSampleStore.users 1).map
          (fun user => { user with
            favoriteGames := user.favoriteGames.filter (fun i => decide (i ≠ 5)) }) :=
  (c8_remove_all removeSampleStore 1 5 (by decide)).2.2 (by decide)

/-! ### Key-structure lemmas for the stored maps -/

theorem mapGet_eq_none_iff {α β : Type} [DecidableEq α] (m : List (α × β)) (k : α) :
    mapGet m k = none ↔ ∀ p ∈ m, p.1 ≠ k := by
  induction m with
  | nil => simp [mapGet]
  | cons p ps ih =>
    by_cases h : p.1 = k
    · simp [mapGet, h]
    · simp [mapGet, h, ih]

theorem keys_cons {α β : Type} (p : α × β) (ps : List (α × β)) :
    keys (p :: ps) = p.1 :: keys ps := rfl

theorem keys_append {α β : Type} (m l : List (α × β)) :
    keys (m ++ l) = keys m ++ keys l := by
  simp [keys]

theorem mem_keys {α β : Type} (m : List (α × β)) (a : α) :
    a ∈ keys m ↔ ∃ p ∈ m, p.1 = a := by
  simp [keys]

theorem keys_map_replace {α β : Type} [DecidableEq α] (m : List (α × β)) (k : α) (v : β) :
    keys (m.map (fun p => if p.1 = k then (k, v) else p)) = keys m := by
  induction m with
  | nil => rfl
  | cons p ps ih =>
    rw [List.map_cons, keys_cons, keys_cons, ih]
    by_cases h : p.1 = k <;> simp [h]

theorem keys_mapSet_some {α β : Type} [DecidableEq α] (m : List (α × β)) (k : α) (v : β)
    (h : (mapGet m k).isSome) : keys (mapSet m k v) = keys m := by
  rw [mapSet, if_pos h, keys_map_replace]

theorem keys_mapSet_none {α β : Type} [DecidableEq α] (m : List (α × β)) (k : α) (v : β)
    (h : mapGet m k = none) : keys (mapSet m k v) = keys m ++ [k] := by
  rw [mapSet, if_neg (by simp [h]), keys_append]
  rfl

theorem mem_mapSet {α β : Type} [DecidableEq α] (m : List (α × β)) (k : α) (v : β)
    (p : α × β) (hp : p ∈ mapSet m k v) :
    (p.1 = k ∧ p.2 = v) ∨ (p.1 ≠ k ∧ p ∈ m) := by
  rw [mapSet] at hp
  by_cases h : (mapGet m k).isSome
  · rw [if_pos h] at hp
    obtain ⟨q, hq, hpq⟩ := List.mem_map.mp hp
    by_cases hqk : q.1 = k
    · rw [if_pos hqk] at hpq
      left
      rw [← hpq]
      exact ⟨rfl, rfl⟩
    · rw [if_neg hqk] at hpq
      right
      rw [← hpq]
      exact ⟨hqk, hq⟩
  · rw [if_neg h] at hp
    rcases List.mem_append.mp hp with hm2 | hs
    · exact Or.inr ⟨(mapGet_eq_none_iff m k).mp (Option.not_isSome_iff_eq_none.mp h) p hm2, hm2⟩
    · left
      rw [List.mem_singleton.mp hs]
      exact ⟨rfl, rfl⟩

/-! ### Preservation of the users invariant -/

theorem usersInv_update (σ : MemStorage) (h : UsersInv σ) (u : Nat) (user : User)
    (hm : mapGet σ.users u = some user) (newUser : User) (hnid : newUser.id = user.id) :
    List.Pairwise (fun a b => a < b) (keys (mapSet σ.users user.id newUser))
    ∧ ∀ p ∈ mapSet σ.users user.id newUser, p.2.id = p.1 ∧ p.1 < σ.userId := by
  have hmem := mapGet_mem σ.users u user hm
  have huid : user.id = u := (h.2 _ hmem).1
  have hsome : (mapGet σ.users user.id).isSome := by rw [huid, hm]; rfl
  constructor
  · rw [keys_mapSet_some _ _ _ hsome]
    exact h.1
  · intro p hp
    rcases mem_mapSet _ _ _ _ hp with ⟨hp1, hp2⟩ | ⟨_, hpm⟩
    · rw [hp1, hp2, hnid]
      refine ⟨rfl, ?_⟩
      rw [huid]
      exact (h.2 _ hmem).2
    · exact h.2 _ hpm

theorem usersInv_createUser (σ : MemStorage) (d : InsertUser) (hsh : String → String)
    (now : Int) (h : UsersInv σ) : UsersInv (createUser σ d hsh now).2 := by
  have hnone : mapGet σ.users σ.userId = none :=
    (mapGet_eq_none_iff _ _).mpr (fun p hp => ne_of_lt (h.2 p hp).2)
  have husers : (createUser σ d hsh now).2.users
      = mapSet σ.users σ.userId (createUser σ d hsh now).1 := rfl
  constructor
  · rw [husers, keys_mapSet_none _ _ _ hnone, List.pairwise_append]
    refine ⟨h.1, List.pairwise_singleton _ _, ?_⟩
    intro a ha b hb
    rw [List.mem_singleton.mp hb]
    obtain ⟨p, hp, hpa⟩ := (mem_keys _ _).mp ha
    rw [← hpa]
    exact (h.2 p hp).2
  · intro p hp
    rw [husers] at hp
    rcases mem_mapSet _ _ _ _ hp with ⟨hp1, hp2⟩ | ⟨_, hpm⟩
    · rw [hp1, hp2]
      exact ⟨rfl, Nat.lt_succ_self σ.userId⟩
    · exact ⟨(h.2 _ hpm).1, Nat.lt_succ_of_lt (h.2 _ hpm).2⟩

theorem usersInv_addFavorite (σ : MemStorage) (d : InsertFavorite) (now : Int)
    (h : UsersInv σ) : UsersInv (addFavorite σ d now).2 := by
  cases hm : mapGet σ.users d.userId with
  | none =>
    have husers : (addFavorite σ d now).2.users = σ.users := by
      simp [addFavorite, hm]
    have hid2 : (addFavorite σ d now).2.userId = σ.userId := rfl
    unfold UsersInv
    rw [husers, hid2]
    exact h
  | some user =>
    have husers : (addFavorite σ d now).2.users
        = mapSet σ.users user.id
            { user with favoriteGames := user.favoriteGames ++ [d.gameId] } := by
      simp [addFavorite, hm]
    have hid2 : (addFavorite σ d now).2.userId = σ.userId := rfl
    have hupd := usersInv_update σ h d.userId user hm
      { user with favoriteGames := user.favoriteGames ++ [d.gameId] } rfl
    unfold UsersInv
    rw [husers, hid2]
    exact hupd

theorem usersInv_removeFavorite (σ : MemStorage) (u g : Nat) (h : UsersInv σ) :
    UsersInv (removeFavorite σ u g).2 := by
  cases hm : mapGet σ.favorites u with
  | none =>
    have hσ : (removeFavorite σ u g).2 = σ := by
      unfold removeFavorite
      rw [hm]
    rw [hσ]
    exact h
  | some l =>
    have hrem := removeFavorite_eq σ u g l hm
    by_cases hc : (l.filter (fun fav => decide (fav.gameId ≠ g))).length = l.length
    · rw [if_pos hc] at hrem
      rw [hrem]
      exact h
    · rw [if_neg hc] at hrem
      have hid2 : (removeFavorite σ u g).2.userId = σ.userId := by rw [hrem]
      cases hu : mapGet σ.users u with
      | none =>
        have husers : (removeFavorite σ u g).2.users = σ.users := by
          rw [hrem]
          simp [hu]
        unfold UsersInv
        rw [husers, hid2]
        exact h
      | some user =>
        have husers : (removeFavorite σ u g).2.users
            = mapSet σ.users user.id
                { user with favoriteGames := user.favoriteGames.filter (fun i => decide (i ≠ g)) } := by
          rw [hrem]
          simp [hu]
        have hupd := usersInv_update σ h u user hu
          { user with favoriteGames := user.favoriteGames.filter (fun i => decide (i ≠ g)) } rfl
        unfold UsersInv
        rw [husers, hid2]
        exact hupd

theorem usersInv_applyOp (σ : MemStorage) (op : Op) (h : UsersInv σ) :
    UsersInv (applyOp σ op) := by
  cases op with
  | createUserOp d hsh now => exact usersInv_createUser σ d hsh now h
  | addFavoriteOp d now => exact usersInv_addFavorite σ d now h
  | removeFavoriteOp u g => exact usersInv_removeFavorite σ u g h

theorem usersInv_initial : UsersInv initialStorage := by
  constructor
  · exact List.Pairwise.nil
  · intro p hp
    exact absurd hp (List.not_mem_nil p)

theorem usersInv_runOps (σ : MemStorage) (ops : List Op) (h : UsersInv σ) :
    UsersInv (runOps σ ops) := by
  induction ops generalizing σ with
  | nil => exact h
  | cons op rest ih => exact ih _ (usersInv_applyOp σ op h)

/-! ### Preservation of the mirror invariant -/

theorem addFavorite_favorites_eq (σ : MemStorage) (d : InsertFavorite) (now : Int) :
    (addFavorite σ d now).2.favorites
      = mapSet (if (mapGet σ.favorites d.userId).isSome then σ.favorites
                else mapSet σ.favorites d.userId [])
          d.userId
          ((mapGet (if (mapGet σ.favorites d.userId).isSome then σ.favorites
                else mapSet σ.favorites d.userId []) d.userId).getD []
            ++ [(addFavorite σ d now).1]) := rfl

theorem addFavorite_favorites_ne (σ : MemStorage) (d : InsertFavorite) (now : Int)
    (k : Nat) (hk : k ≠ d.userId) :
    mapGet (addFavorite σ d now).2.favorites k = mapGet σ.favorites k := by
  rw [addFavorite_favorites_eq, mapGet_mapSet_ne _ _ _ _ (Ne.symm hk)]
  by_cases h : (mapGet σ.favorites d.userId).isSome
  · rw [if_pos h]
  · rw [if_neg h, mapGet_mapSet_ne _ _ _ _ (Ne.symm hk)]

theorem mem_addFavorite_favorites (σ : MemStorage) (d : InsertFavorite) (now : Int)
    (q : Nat × List Favorite) (hq : q ∈ (addFavorite σ d now).2.favorites) :
    q.1 = d.userId ∨ (q.1 ≠ d.userId ∧ q ∈ σ.favorites) := by
  rw [addFavorite_favorites_eq] at hq
  rcases mem_mapSet _ _ _ _ hq with ⟨hq1, _⟩ | ⟨hqne, hq0⟩
  · exact Or.inl hq1
  · refine Or.inr ⟨hqne, ?_⟩
    by_cases h : (mapGet σ.favorites d.userId).isSome
    · rw [if_pos h] at hq0
      exact hq0
    · rw [if_neg h] at hq0
      rcases mem_mapSet _ _ _ _ hq0 with ⟨hq1, _⟩ | ⟨_, hq2⟩
      · exact absurd hq1 hqne
      · exact hq2

theorem mirrorInv_createUser (σ : MemStorage) (d : InsertUser) (hsh : String → String)
    (now : Int) (hU : UsersInv σ) (hM : MirrorInv σ) :
    MirrorInv (createUser σ d hsh now).2 := by
  have hfavnone : mapGet σ.favorites σ.userId = none := by
    cases hfav : mapGet σ.favorites σ.userId with
    | none => rfl
    | some L =>
      have hq := hM.1 _ (mapGet_mem _ _ _ hfav)
      obtain ⟨w, hw⟩ := Option.isSome_iff_exists.mp hq
      exact absurd (hU.2 _ (mapGet_mem _ _ _ hw)).2 (lt_irrefl _)
  have husers : (createUser σ d hsh now).2.users
      = mapSet σ.users σ.userId (createUser σ d hsh now).1 := rfl
  have hfavs : (createUser σ d hsh now).2.favorites = σ.favorites := rfl
  constructor
  · intro q hq
    rw [hfavs] at hq
    have hsome := hM.1 q hq
    obtain ⟨w, hw⟩ := Option.isSome_iff_exists.mp hsome
    have hqlt := (hU.2 _ (mapGet_mem _ _ _ hw)).2
    rw [husers, mapGet_mapSet_ne _ _ _ _ (ne_of_gt hqlt)]
    exact hsome
  · intro p hp
    rw [husers] at hp
    rcases mem_mapSet _ _ _ _ hp with ⟨hp1, hp2⟩ | ⟨_, hpm⟩
    · rw [hp1, hp2, hfavs, hfavnone]
      rfl
    · rw [hfavs]
      exact hM.2 _ hpm

theorem mirrorInv_addFavorite (σ : MemStorage) (d : InsertFavorite) (now : Int)
    (hU : UsersInv σ) (hM : MirrorInv σ) (hok : (mapGet σ.users d.userId).isSome) :
    MirrorInv (addFavorite σ d now).2 := by
  obtain ⟨user, hm⟩ := Option.isSome_iff_exists.mp hok
  have hmem := mapGet_mem σ.users d.userId user hm
  have huid : user.id = d.userId := (hU.2 _ hmem).1
  have husers : (addFavorite σ d now).2.users
      = mapSet σ.users user.id
          { user with favoriteGames := user.favoriteGames ++ [d.gameId] } := by
    simp [addFavorite, hm]
  have hfavu := addFavorite_favorites σ d now
  constructor
  · intro q hq
    rcases mem_addFavorite_favorites σ d now q hq with hq1 | ⟨hqne, hq2⟩
    · rw [hq1, husers, huid, mapGet_mapSet_self]
      rfl
    · rw [husers]
      by_cases hqu : q.1 = user.id
      · rw [hqu, mapGet_mapSet_self]
        rfl
      · rw [mapGet_mapSet_ne _ _ _ _ (Ne.symm hqu)]
        exact hM.1 _ hq2
  · intro p hp
    rw [husers] at hp
    rcases mem_mapSet _ _ _ _ hp with ⟨hp1, hp2⟩ | ⟨hpne, hpm⟩
    · rw [hp1, hp2, huid, hfavu, Option.getD_some, List.map_append]
      have hmirror := hM.2 _ hmem
      show user.favoriteGames ++ [d.gameId]
          = (getUserFavorites σ d.userId).map (fun f => f.gameId)
            ++ [(addFavorite σ d now).1].map (fun f => f.gameId)
      rw [hmirror]
      rfl
    · have hne2 : p.1 ≠ d.userId := by
        rw [← huid]
        exact hpne
      rw [addFavorite_favorites_ne σ d now p.1 hne2]
      exact hM.2 _ hpm

theorem mirrorInv_removeFavorite (σ : MemStorage) (u g : Nat)
    (hU : UsersInv σ) (hM : MirrorInv σ) : MirrorInv (removeFavorite σ u g).2 := by
  cases hm : mapGet σ.favorites u with
  | none =>
    have hσ : (removeFavorite σ u g).2 = σ := by
      unfold removeFavorite
      rw [hm]
    rw [hσ]
    exact hM
  | some l =>
    have hrem := removeFavorite_eq σ u g l hm
    by_cases hc : (l.filter (fun fav => decide (fav.gameId ≠ g))).length = l.length
    · rw [if_pos hc] at hrem
      rw [hrem]
      exact hM
    · rw [if_neg hc] at hrem
      have hsome : (mapGet σ.users u).isSome := hM.1 _ (mapGet_mem _ _ _ hm)
      obtain ⟨user, hu⟩ := Option.isSome_iff_exists.mp hsome
      have huid : user.id = u := (hU.2 _ (mapGet_mem _ _ _ hu)).1
      have husers : (removeFavorite σ u g).2.users
          = mapSet σ.users user.id
              { user with favoriteGames := user.favoriteGames.filter (fun i => decide (i ≠ g)) } := by
        rw [hrem]
        simp [hu]
      have hfavs : (removeFavorite σ u g).2.favorites
          = mapSet σ.favorites u (l.filter (fun fav => decide (fav.gameId ≠ g))) := by
        rw [hrem]
      constructor
      · intro q hq
        rw [hfavs] at hq
        rcases mem_mapSet _ _ _ _ hq with ⟨hq1, _⟩ | ⟨hqne, hq2⟩
        · rw [husers, hq1, huid, mapGet_mapSet_self]
          rfl
        · rw [husers]
          by_cases hqu : q.1 = user.id
          · rw [hqu, mapGet_mapSet_self]
            rfl
          · rw [mapGet_mapSet_ne _ _ _ _ (Ne.symm hqu)]
            exact hM.1 _ hq2
      · intro p hp
        rw [husers] at hp
        rcases mem_mapSet _ _ _ _ hp with ⟨hp1, hp2⟩ | ⟨hpne, hpm⟩
        · rw [hp1, hp2, huid, hfavs, mapGet_mapSet_self, Option.getD_some]
          have hmir := hM.2 _ (mapGet_mem _ _ _ hu)
          rw [hm, Option.getD_some] at hmir
          show user.favoriteGames.filter (fun i => decide (i ≠ g))
              = (l.filter (fun fav => decide (fav.gameId ≠ g))).map (fun f => f.gameId)
          rw [hmir, List.filter_map]
          rfl
        · have hne2 : p.1 ≠ u := by
            rw [← huid]
            exact hpne
          rw [hfavs, mapGet_mapSet_ne _ _ _ _ (Ne.symm hne2)]
          exact hM.2 _ hpm

theorem mirrorInv_initial : MirrorInv initialStorage := by
  constructor
  · intro q hq
    exact absurd hq (List.not_mem_nil q)
  · intro p hp
    exact absurd hp (List.not_mem_nil p)

theorem inv_runOps (σ : MemStorage) (ops : List Op) (hU : UsersInv σ) (hM : MirrorInv σ)
    (hok : okOps σ ops = true) :
    UsersInv (runOps σ ops) ∧ MirrorInv (runOps σ ops) := by
  induction ops generalizing σ with
  | nil => exact ⟨hU, hM⟩
  | cons op rest ih =>
    cases op with
    | createUserOp d hsh now =>
      simp only [okOps, Bool.and_eq_true] at hok
      exact ih _ (usersInv_createUser σ d hsh now hU)
        (mirrorInv_createUser σ d hsh now hU hM) hok.2
    | addFavoriteOp d now =>
      simp only [okOps, Bool.and_eq_true] at hok
      exact ih _ (usersInv_addFavorite σ d now hU)
        (mirrorInv_addFavorite σ d now hU hM hok.1) hok.2
    | removeFavoriteOp u g =>
      simp only [okOps, Bool.and_eq_true] at hok
      exact ih _ (usersInv_removeFavorite σ u g hU)
        (mirrorInv_removeFavorite σ u g hU hM) hok.2

/-! ### Claim C9: mirror consistency of reachable states -/

/-- C9: in every state reachable from the fresh store by `createUser`,
`addFavorite` and `removeFavorite` calls in which every `addFavorite` names
an already-created user, every stored user's `favoriteGames` equals,
element for element and in order, the game ids of that user's favorite
rows as returned by `getUserFavorites`. -/
theorem c9_mirror (ops : List Op) (hok : okOps initialStorage ops = true) :
    ∀ p ∈ (runOps initialStorage ops).users,
      p.2.favoriteGames
        = (getUserFavorites (runOps initialStorage ops) p.1).map (fun f => f.gameId) := by
  have h := inv_runOps initialStorage ops usersInv_initial mirrorInv_initial hok
  intro p hp
  exact h.2.2 p hp

/-- Witness for C9: create user 1, add game 7; the stored user's mirror
list is exactly the game ids of their favorite rows. -/
theorem c9_mirror_witness :
    ({ id := 1, email := "a@b", username := "u", password := "pw", createdAt := 0,
       profilePicture := none, favoriteGames := [7] } : User).favoriteGames
      = (getUserFavorites (runOps initialStorage opsSample) 1).map (fun f => f.gameId) :=
  c9_mirror opsSample (by decide)
    (1, { id := 1, email := "a@b", username := "u", password := "pw", createdAt := 0,
          profilePicture := none, favoriteGames := [7] }) (by decide)

/-! ### Claim C10: createUser totality and earliest-match email lookup -/

theorem getUserByEmail_minimal (l : List (Nat × User)) (e : String) :
    List.Pairwise (fun a b => a < b) (keys l) →
    (∀ p ∈ l, p.2.id = p.1) →
    ∀ u : User,
    (l.map (fun p => p.2)).find? (fun user => decide (user.email = e)) = some u →
    u.email = e ∧ (∃ p ∈ l, p.2 = u) ∧ ∀ p ∈ l, p.2.email = e → u.id ≤ p.2.id := by
  induction l with
  | nil =>
    intro _ _ u hfind
    cases hfind
  | cons p ps ih =>
    intro hpw hids u hfind
    rw [keys_cons, List.pairwise_cons] at hpw
    by_cases he : p.2.email = e
    · have hu : p.2 = u := by
        rw [List.map_cons, List.find?_cons] at hfind
        simp [he] at hfind
        exact hfind
      refine ⟨by rw [← hu]; exact he, ⟨p, List.mem_cons_self p ps, hu⟩, ?_⟩
      intro q hq hqe
      rcases List.mem_cons.mp hq with rfl | hq2
      · rw [← hu]
      · have hlt : p.1 < q.1 := hpw.1 q.1 ((mem_keys _ _).mpr ⟨q, hq2, rfl⟩)
        have h1 : u.id = p.1 := by
          rw [← hu]
          exact hids p (List.mem_cons_self p ps)
        have h2 : q.2.id = q.1 := hids q (List.mem_cons_of_mem _ hq2)
        rw [h1, h2]
        exact le_of_lt hlt
    · rw [List.map_cons, List.find?_cons] at hfind
      simp only [he, decide_eq_false, Bool.false_eq_true, if_false] at hfind
      have hres := ih hpw.2 (fun q hq => hids q (List.mem_cons_of_mem _ hq)) u hfind
      refine ⟨hres.1, ?_, ?_⟩
      · obtain ⟨q, hq, hqu⟩ := hres.2.1
        exact ⟨q, List.mem_cons_of_mem _ hq, hqu⟩
      · intro q hq hqe
        rcases List.mem_cons.mp hq with rfl | hq2
        · exact absurd hqe he
        · exact hres.2.2 q hq2 hqe

theorem getUserByEmail_isSome (l : List (Nat × User)) (e : String)
    (hex : ∃ p ∈ l, p.2.email = e) :
    ((l.map (fun p => p.2)).find? (fun user => decide (user.email = e))).isSome := by
  rw [List.find?_isSome]
  obtain ⟨p, hp, hpe⟩ := hex
  exact ⟨p.2, List.mem_map.mpr ⟨p, hp, rfl⟩, by simp [hpe]⟩

/-- C10: in every state reachable from the fresh store, `createUser` is
total and performs no uniqueness check: it assigns the next `userId` as the
new id (strictly above every stored id, whatever the emails and usernames
are), increments the counter, and stores the user; and `getUserByEmail`,
whenever it returns a user, returns a stored user with the requested email
whose id is minimal among all stored users with that email — the
earliest-created one — and it does return one whenever any stored user has
that email. -/
theorem c10_create_and_lookup (ops : List Op) (d : InsertUser)
    (hsh : String → String) (now : Int) (e : String) :
    ((createUser (runOps initialStorage ops) d hsh now).1.id
        = (runOps initialStorage ops).userId
      ∧ (createUser (runOps initialStorage ops) d hsh now).2.userId
        = (runOps initialStorage ops).userId + 1
      ∧ mapGet (createUser (runOps initialStorage ops) d hsh now).2.users
          (runOps initialStorage ops).userId
        = some (createUser (runOps initialStorage ops) d hsh now).1
      ∧ ∀ p ∈ (runOps initialStorage ops).users,
          p.2.id < (createUser (runOps initialStorage ops) d hsh now).1.id)
    ∧ ((∃ p ∈ (runOps initialStorage ops).users, p.2.email = e) →
        (getUserByEmail (runOps initialStorage ops) e).isSome)
    ∧ (∀ u, getUserByEmail (runOps initialStorage ops) e = some u →
        u.email = e ∧ (∃ p ∈ (runOps initialStorage ops).users, p.2 = u)
        ∧ ∀ p ∈ (runOps initialStorage ops).users, p.2.email = e → u.id ≤ p.2.id) := by
  have hU := usersInv_runOps initialStorage ops usersInv_initial
  refine ⟨⟨rfl, rfl, ?_, ?_⟩, ?_, ?_⟩
  · exact mapGet_mapSet_self (runOps initialStorage ops).users
      (runOps initialStorage ops).userId (createUser (runOps initialStorage ops) d hsh now).1
  · intro p hp
    rw [(hU.2 p hp).1]
    exact (hU.2 p hp).2
  · intro hex
    exact getUserByEmail_isSome _ e hex
  · intro u hu
    exact getUserByEmail_minimal _ e hU.1 (fun p hp => (hU.2 p hp).1) u hu

/-- Witness for C10: two users created with the same email `a@b`; the
lookup succeeds and the first-created user's id is at most the second's. -/
theorem c10_create_and_lookup_witness :
    (getUserByEmail (runOps initialStorage opsDup) "a@b").isSome
    ∧ ({ id := 1, email := "a@b", username := "u1", password := "p1", createdAt := 0,
         profilePicture := none, favoriteGames := [] } : User).id
      ≤ ({ id := 2, email := "a@b", username := "u2", password := "p2", createdAt := 0,
           profilePicture := none, favoriteGames := [] } : User).id :=
  ⟨(c10_create_and_lookup opsDup
      { email := "x", username := "y", password := "z", profilePicture := none }
      (fun s => s) 0 "a@b").2.1
    ⟨(1, { id := 1, email := "a@b", username := "u1", password := "p1", createdAt := 0,
           profilePicture := none, favoriteGames := [] }), by decide, by decide⟩,
   ((c10_create_and_lookup opsDup
      { email := "x", username := "y", password := "z", profilePicture := none }
      (fun s => s) 0 "a@b").2.2
      { id := 1, email := "a@b", username := "u1", password := "p1", createdAt := 0,
        profilePicture := none, favoriteGames := [] } (by decide)).2.2
    (2, { id := 2, email := "a@b", username := "u2", password := "p2", createdAt := 0,
          profilePicture := none, favoriteGames := [] }) (by decide) (by decide)⟩

/-! ### Claim C5: the listing cache key is injective -/

theorem hexVal_hexDig : ∀ n : Nat, n < 16 → hexVal (hexDig n) = some n := by decide

theorem parseJStr_quote (rest : List Char) : parseJStr ('"' :: rest) = some ([], rest) := by
  rw [parseJStr.eq_def]
  dsimp only
  rw [if_pos rfl]

theorem parseJStr_plain (c : Char) (rest : List Char) (h1 : c ≠ '"') (h2 : c ≠ '\\') :
    parseJStr (c :: rest) = (parseJStr rest).map (fun p => (c :: p.1, p.2)) := by
  rw [parseJStr.eq_def]
  dsimp only
  rw [if_neg h1, if_neg h2]

theorem parseJStr_esc (e : Char) (d : Char) (X : List Char)
    (he : (e = '"' ∧ d = '"') ∨ (e = '\\' ∧ d = '\\') ∨ (e = 'b' ∧ d = '\x08')
      ∨ (e = 't' ∧ d = '\x09') ∨ (e = 'n' ∧ d = '\x0a') ∨ (e = 'f' ∧ d = '\x0c')
      ∨ (e = 'r' ∧ d = '\x0d')) :
    parseJStr ('\\' :: e :: X) = (parseJStr X).map (fun p => (d :: p.1, p.2)) := by
  rw [parseJStr.eq_def]
  dsimp only
  rw [if_neg (by decide), if_pos rfl]
  rcases he with ⟨rfl, rfl⟩ | ⟨rfl, rfl⟩ | ⟨rfl, rfl⟩ | ⟨rfl, rfl⟩ | ⟨rfl, rfl⟩
    | ⟨rfl, rfl⟩ | ⟨rfl, rfl⟩
  · rw [if_pos rfl]
  · rw [if_neg (by decide), if_pos rfl]
  · rw [if_neg (by decide), if_neg (by decide), if_pos rfl]
  · rw [if_neg (by decide), if_neg (by decide), if_neg (by decide), if_pos rfl]
  · rw [if_neg (by decide), if_neg (by decide), if_neg (by decide), if_neg (by decide),
      if_pos rfl]
  · rw [if_neg (by decide), if_neg (by decide), if_neg (by decide), if_neg (by decide),
      if_neg (by decide), if_pos rfl]
  · rw [if_neg (by decide), if_neg (by decide), if_neg (by decide), if_neg (by decide),
      if_neg (by decide), if_neg (by decide), if_pos rfl]

theorem parseJStr_u (d1 d2 : Char) (X : List Char) :
    parseJStr ('\\' :: 'u' :: '0' :: '0' :: d1 :: d2 :: X)
      = match hexVal d1, hexVal d2 with
        | some a, some b => (parseJStr X).map (fun p => (Char.ofNat (16 * a + b) :: p.1, p.2))
        | _, _ => none := by
  rw [parseJStr.eq_def]
  dsimp only
  rw [if_neg (by decide), if_pos rfl]
  rw [if_neg (by decide), if_neg (by decide), if_neg (by decide), if_neg (by decide),
    if_neg (by decide), if_neg (by decide), if_neg (by decide), if_pos rfl]
  rw [if_pos (by decide)]

theorem parseJStr_escape (s : List Char) (rest : List Char) :
    parseJStr (escape s ++ '"' :: rest) = some (s, rest) := by
  induction s with
  | nil =>
    rw [escape, List.nil_append, parseJStr_quote]
  | cons c cs ih =>
    rw [escape, List.append_assoc]
    by_cases h1 : c = '"'
    · subst h1
      rw [show escChar '"' = ['\\', '"'] from rfl, List.cons_append, List.cons_append,
        List.nil_append, parseJStr_esc '"' '"' _ (Or.inl ⟨rfl, rfl⟩), ih]
      rfl
    · by_cases h2 : c = '\\'
      · subst h2
        rw [show escChar '\\' = ['\\', '\\'] from rfl, List.cons_append, List.cons_append,
          List.nil_append, parseJStr_esc '\\' '\\' _ (Or.inr (Or.inl ⟨rfl, rfl⟩)), ih]
        rfl
      · by_cases h3 : c = '\x08'
        · subst h3
          rw [show escChar '\x08' = ['\\', 'b'] from rfl, List.cons_append, List.cons_append,
            List.nil_append,
            parseJStr_esc 'b' '\x08' _ (Or.inr (Or.inr (Or.inl ⟨rfl, rfl⟩))), ih]
          rfl
        · by_cases h4 : c = '\x09'
          · subst h4
            rw [show escChar '\x09' = ['\\', 't'] from rfl, List.cons_append, List.cons_append,
              List.nil_append,
              parseJStr_esc 't' '\x09' _ (Or.inr (Or.inr (Or.inr (Or.inl ⟨rfl, rfl⟩)))), ih]
            rfl
          · by_cases h5 : c = '\x0a'
            · subst h5
              rw [show escChar '\x0a' = ['\\', 'n'] from rfl, List.cons_append,
                List.cons_append, List.nil_append,
                parseJStr_esc 'n' '\x0a' _
                  (Or.inr (Or.inr (Or.inr (Or.inr (Or.inl ⟨rfl, rfl⟩))))), ih]
              rfl
            · by_cases h6 : c = '\x0c'
              · subst h6
                rw [show escChar '\x0c' = ['\\', 'f'] from rfl, List.cons_append,
                  List.cons_append, List.nil_append,
                  parseJStr_esc 'f' '\x0c' _
                    (Or.inr (Or.inr (Or.inr (Or.inr (Or.inr (Or.inl ⟨rfl, rfl⟩)))))), ih]
                rfl
              · by_cases h7 : c = '\x0d'
                · subst h7
                  rw [show escChar '\x0d' = ['\\', 'r'] from rfl, List.cons_append,
                    List.cons_append, List.nil_append,
                    parseJStr_esc 'r' '\x0d' _
                      (Or.inr (Or.inr (Or.inr (Or.inr (Or.inr (Or.inr ⟨rfl, rfl⟩)))))), ih]
                  rfl
                · by_cases h8 : c.toNat < 32
                  · have hesc : escChar c
                        = ['\\', 'u', '0', '0', hexDig (c.toNat / 16), hexDig (c.toNat % 16)] := by
                      simp [escChar, h1, h2, h3, h4, h5, h6, h7, h8]
                    have hdiv : c.toNat / 16 < 16 := by omega
                    have hmod : c.toNat % 16 < 16 := Nat.mod_lt _ (by norm_num)
                    rw [hesc, List.cons_append, List.cons_append, List.cons_append,
                      List.cons_append, List.cons_append, List.cons_append, List.nil_append,
                      parseJStr_u, hexVal_hexDig _ hdiv, hexVal_hexDig _ hmod]
                    dsimp only
                    rw [ih]
                    dsimp only [Option.map]
                    rw [Nat.div_add_mod, Char.ofNat_toNat]
                  · have hesc : escChar c = [c] := by
                      simp [escChar, h1, h2, h3, h4, h5, h6, h7, h8]
                    rw [hesc, List.singleton_append, parseJStr_plain c _ h1 h2, ih]
                    rfl

theorem dropLit_append (lit rest : List Char) : dropLit lit (lit ++ rest) = some rest := by
  induction lit with
  | nil => rfl
  | cons c cs ih => simp [dropLit, ih]

theorem dropLit_ne1 (a x : Char) (L X : List Char) (h : x ≠ a) :
    dropLit (a :: L) (x :: X) = none := by
  rw [dropLit, if_neg h]

theorem dropLit_ne3 (a b c1 c2 : Char) (L X : List Char) (h : c2 ≠ c1) :
    dropLit (a :: b :: c1 :: L) (a :: b :: c2 :: X) = none := by
  rw [dropLit, if_pos rfl, dropLit, if_pos rfl, dropLit, if_neg h]

theorem parseOptField_rt (pre : List Char) (v : Option String) (tail : List Char)
    (h : dropLit (pre ++ ['"']) tail = none) :
    parseOptField pre (optField pre v ++ tail)
      = some (v.map (fun s => s.data), tail) := by
  cases v with
  | none =>
    unfold parseOptField optField
    rw [List.nil_append, h]
    rfl
  | some s =>
    unfold parseOptField optField
    have harr : (pre ++ jstr s.data) ++ tail
        = (pre ++ ['"']) ++ (escape s.data ++ '"' :: tail) := by
      simp [jstr]
    rw [harr, dropLit_append]
    dsimp only
    rw [parseJStr_escape]
    rfl

theorem parseDefField_rt (pre : List Char) (c : Char) (cs : List Char) (v : Option String)
    (tail : List Char) (hc : c ≠ '"') :
    parseDefField pre (c :: cs) (defField pre (c :: cs) v ++ tail)
      = some (v.map (fun s => s.data), tail) := by
  cases v with
  | none =>
    unfold parseDefField defField
    have harr : (pre ++ (c :: cs)) ++ tail = pre ++ (c :: (cs ++ tail)) := by simp
    rw [harr, dropLit_append]
    dsimp only
    rw [if_neg hc]
    rw [show (c :: (cs ++ tail)) = (c :: cs) ++ tail from rfl, dropLit_append]
    rfl
  | some s =>
    unfold parseDefField defField
    have harr : (pre ++ jstr s.data) ++ tail
        = pre ++ ('"' :: (escape s.data ++ '"' :: tail)) := by
      simp [jstr]
    rw [harr, dropLit_append]
    dsimp only
    rw [if_pos rfl, parseJStr_escape]
    rfl

theorem droplit_search (pa : Option String) (X : List Char) :
    dropLit (searchPre ++ ['"']) (defField pagePre ['1'] pa ++ X) = none := by
  cases pa with
  | none =>
    simp only [defField, searchPre, pagePre, List.cons_append, List.nil_append,
      List.append_assoc]
    exact dropLit_ne3 _ _ _ _ _ _ (by decide)
  | some s =>
    simp only [defField, searchPre, pagePre, jstr, List.cons_append, List.nil_append,
      List.append_assoc]
    exact dropLit_ne3 _ _ _ _ _ _ (by decide)

theorem droplit_esrb : dropLit (esrbPre ++ ['"']) ['\x7d'] = none := by decide

theorem droplit_ordering (es : Option String) :
    dropLit (orderingPre ++ ['"']) (optField esrbPre es ++ ['\x7d']) = none := by
  cases es with
  | none => decide
  | some s =>
    simp only [optField, orderingPre, esrbPre, jstr, List.cons_append, List.nil_append,
      List.append_assoc]
    exact dropLit_ne3 _ _ _ _ _ _ (by decide)

theorem droplit_genres (od es : Option String) :
    dropLit (genresPre ++ ['"'])
      (optField orderingPre od ++ (optField esrbPre es ++ ['\x7d'])) = none := by
  cases od with
  | some s =>
    simp only [optField, genresPre, orderingPre, jstr, List.cons_append, List.nil_append,
      List.append_assoc]
    exact dropLit_ne3 _ _ _ _ _ _ (by decide)
  | none =>
    rw [show optField orderingPre none = [] from rfl, List.nil_append]
    cases es with
    | none => decide
    | some s =>
      simp only [optField, genresPre, esrbPre, jstr, List.cons_append, List.nil_append,
        List.append_assoc]
      exact dropLit_ne3 _ _ _ _ _ _ (by decide)

theorem droplit_platforms (ge od es : Option String) :
    dropLit (platformsPre ++ ['"'])
      (optField genresPre ge ++ (optField orderingPre od
        ++ (optField esrbPre es ++ ['\x7d']))) = none := by
  cases ge with
  | some s =>
    simp only [optField, platformsPre, genresPre, jstr, List.cons_append, List.nil_append,
      List.append_assoc]
    exact dropLit_ne3 _ _ _ _ _ _ (by decide)
  | none =>
    rw [show optField genresPre none = [] from rfl, List.nil_append]
    cases od with
    | some s =>
      simp only [optField, platformsPre, orderingPre, jstr, List.cons_append,
        List.nil_append, List.append_assoc]
      exact dropLit_ne3 _ _ _ _ _ _ (by decide)
    | none =>
      rw [show optField orderingPre none = [] from rfl, List.nil_append]
      cases es with
      | none => decide
      | some s =>
        simp only [optField, platformsPre, esrbPre, jstr, List.cons_append,
          List.nil_append, List.append_assoc]
        exact dropLit_ne3 _ _ _ _ _ _ (by decide)

theorem optStringRT (v : Option String) : (v.map (fun s => s.data)).map String.mk = v := by
  cases v <;> rfl

/-- `parseListingKey` is a left inverse of the key derivation. -/
theorem parseListingKey_rt (q : ListingParams) :
    parseListingKey (listingKeyChars q) = some q := by
  obtain ⟨se, pa, ps, pl, ge, od, es⟩ := q
  have hinput : listingKeyChars ⟨se, pa, ps, pl, ge, od, es⟩
      = headLit ++ (optField searchPre se ++ (defField pagePre ['1'] pa
        ++ (defField pageSizePre ['2', '0'] ps ++ (optField platformsPre pl
          ++ (optField genresPre ge ++ (optField orderingPre od
            ++ (optField esrbPre es ++ ['\x7d']))))))) := by
    simp [listingKeyChars, List.append_assoc]
  rw [hinput]
  unfold parseListingKey
  rw [dropLit_append]
  dsimp only
  rw [parseOptField_rt searchPre se _ (droplit_search pa _)]
  dsimp only
  rw [parseDefField_rt pagePre '1' [] pa _ (by decide)]
  dsimp only
  rw [parseDefField_rt pageSizePre '2' ['0'] ps _ (by decide)]
  dsimp only
  rw [parseOptField_rt platformsPre pl _ (droplit_platforms ge od es)]
  dsimp only
  rw [parseOptField_rt genresPre ge _ (droplit_genres od es)]
  dsimp only
  rw [parseOptField_rt orderingPre od _ (droplit_ordering es)]
  dsimp only
  rw [parseOptField_rt esrbPre es _ droplit_esrb]
  dsimp only
  rw [optStringRT, optStringRT, optStringRT, optStringRT, optStringRT, optStringRT,
    optStringRT]
  rfl

/-- C5: the listing cache key is a deterministic function of the listing
parameters, and two parameter records derive the same key exactly when
they agree on the value and set/unset status of every parameter: the
derivation is injective. -/
theorem c5_cache_key_deterministic_injective (q q2 : ListingParams) :
    listingCacheKey q = listingCacheKey q2 ↔ q = q2 := by
  constructor
  · intro h
    have h1 := parseListingKey_rt q
    have h2 := parseListingKey_rt q2
    have hchars : listingKeyChars q = listingKeyChars q2 := by
      have := congrArg String.data h
      simpa [listingCacheKey] using this
    rw [hchars] at h1
    rw [h1] at h2
    exact Option.some_inj.mp h2
  · intro h
    rw [h]

/-! ### Cache handler lemmas -/

theorem getGameCache_none (σ : MemStorage) (k : String) (now : Int)
    (h : mapGet σ.gameCache k = none) : getGameCache σ k now = (none, σ) := by
  unfold getGameCache
  rw [h]

theorem getGameCache_pair (σ : MemStorage) (k : String) (now : Int)
    (h : (getGameCache σ k now).1 = none) :
    getGameCache σ k now = (none, (getGameCache σ k now).2) := by
  rw [← h]

theorem getGameCache_miss_state (σ : MemStorage) (k : String) (now : Int)
    (h : (getGameCache σ k now).1 = none) :
    mapGet (getGameCache σ k now).2.gameCache k = none := by
  unfold getGameCache at h ⊢
  cases hm : mapGet σ.gameCache k with
  | none =>
    rw [hm]
  | some item =>
    rw [hm] at h
    dsimp only at h ⊢
    by_cases ht : item.timestamp < now
    · rw [if_pos ht]
      exact mapGet_mapDelete_self σ.gameCache k
    · rw [if_neg ht] at h
      simp at h

theorem cached_entry (σ1 : MemStorage) (k payload : String) (ts : Int) :
    mapGet (cacheGameData σ1 k payload ts).2.gameCache k
      = some { id := σ1.currentId, key := k, data := payload, timestamp := ts } :=
  mapGet_mapSet_self σ1.gameCache k _

/-! ### Claim C6: key forms and TTL constants per endpoint -/

/-- C6: on a cache miss with a successful upstream fetch, the listing
endpoint stores its entry under the derived listing key with expiry
`now + 3600`, the detail endpoint under `/games/` + id with expiry
`now + 86400`, and the search endpoint under `/search/` + query with
expiry `now + 1800`; the TTLs are literal constants of the handlers, not
parameters. -/
theorem c6_ttl_policy (σ : MemStorage) (q : ListingParams) (id qs payload : String)
    (now : Int)
    (h1 : (getGameCache σ (listingCacheKey q) now).1 = none)
    (h2 : (getGameCache σ ("/games/" ++ id) now).1 = none)
    (h3 : (getGameCache σ ("/search/" ++ qs) now).1 = none)
    (hqs : qs ≠ "") :
    mapGet (listGames σ q (Except.ok payload) now).2.gameCache (listingCacheKey q)
      = some { id := ((getGameCache σ (listingCacheKey q) now).2).currentId,
               key := listingCacheKey q, data := payload, timestamp := now + 3600 }
    ∧ mapGet (getGameDetails σ id (Except.ok payload) now).2.gameCache ("/games/" ++ id)
      = some { id := ((getGameCache σ ("/games/" ++ id) now).2).currentId,
               key := "/games/" ++ id, data := payload, timestamp := now + 86400 }
    ∧ mapGet (searchGames σ (some qs) (Except.ok payload) now).2.gameCache
          ("/search/" ++ qs)
      = some { id := ((getGameCache σ ("/search/" ++ qs) now).2).currentId,
               key := "/search/" ++ qs, data := payload, timestamp := now + 1800 } := by
  refine ⟨?_, ?_, ?_⟩
  · unfold listGames
    rw [getGameCache_pair σ _ now h1]
    exact cached_entry _ _ _ _
  · unfold getGameDetails
    rw [getGameCache_pair σ _ now h2]
    exact cached_entry _ _ _ _
  · unfold searchGames
    dsimp only
    rw [if_neg hqs, getGameCache_pair σ _ now h3]
    exact cached_entry _ _ _ _

/-- Witness for C6: on the fresh store, all three endpoints cache their
payload under the stated keys with the stated expiries. -/
theorem c6_ttl_policy_witness :
    mapGet (listGames initialStorage ⟨none, none, none, none, none, none, none⟩
        (Except.ok "P") 0).2.gameCache
        (listingCacheKey ⟨none, none, none, none, none, none, none⟩)
      = some { id := 1, key := listingCacheKey ⟨none, none, none, none, none, none, none⟩,
               data := "P", timestamp := 0 + 3600 }
    ∧ mapGet (getGameDetails initialStorage "42" (Except.ok "P") 0).2.gameCache
        ("/games/" ++ "42")
      = some { id := 1, key := "/games/" ++ "42", data := "P", timestamp := 0 + 86400 }
    ∧ mapGet (searchGames initialStorage (some "mario") (Except.ok "P") 0).2.gameCache
        ("/search/" ++ "mario")
      = some { id := 1, key := "/search/" ++ "mario", data := "P", timestamp := 0 + 1800 } :=
  c6_ttl_policy initialStorage ⟨none, none, none, none, none, none, none⟩ "42" "mario" "P" 0
    rfl rfl rfl (by decide)

/-! ### Claim C4: upstream failure is propagated and nothing is cached -/

/-- C4 (counterexample): the claim says that on a miss with a failing
fetch "the cache state is unchanged".  When the miss is caused by an
expired entry, the lookup lazily deletes that entry before the fetch runs,
so after the failing request the state differs from the initial one: on a
store holding an expired listing entry the error is returned but the entry
is gone. -/
theorem c4_counterexample :
    (listGames staleListingStore ⟨none, none, none, none, none, none, none⟩
        (Except.error "boom") 100).1 = ApiResponse.err 500 "Failed to fetch games"
    ∧ (listGames staleListingStore ⟨none, none, none, none, none, none, none⟩
        (Except.error "boom") 100).2 ≠ staleListingStore := by
  refine ⟨by decide, by decide⟩

/-- C4 (amended): on a cache miss, when the upstream fetch fails each
cached endpoint answers the 500 error and writes no cache entry: the state
is exactly the post-lookup state (unchanged except for the lazy deletion
of an already-expired entry), the key is absent afterwards, and an
immediately following identical request consults the upstream fetch again
(no negative caching). -/
theorem c4_fetch_failure (σ : MemStorage) (q : ListingParams) (id qs emsg payload : String)
    (now : Int)
    (h1 : (getGameCache σ (listingCacheKey q) now).1 = none)
    (h2 : (getGameCache σ ("/games/" ++ id) now).1 = none)
    (h3 : (getGameCache σ ("/search/" ++ qs) now).1 = none)
    (hqs : qs ≠ "") :
    (listGames σ q (Except.error emsg) now
        = (ApiResponse.err 500 "Failed to fetch games",
           (getGameCache σ (listingCacheKey q) now).2)
      ∧ mapGet (listGames σ q (Except.error emsg) now).2.gameCache (listingCacheKey q)
          = none
      ∧ (listGames (listGames σ q (Except.error emsg) now).2 q (Except.ok payload) now).1
          = ApiResponse.ok payload)
    ∧ (getGameDetails σ id (Except.error emsg) now
        = (ApiResponse.err 500 "Failed to fetch game details",
           (getGameCache σ ("/games/" ++ id) now).2)
      ∧ mapGet (getGameDetails σ id (Except.error emsg) now).2.gameCache ("/games/" ++ id)
          = none
      ∧ (getGameDetails (getGameDetails σ id (Except.error emsg) now).2 id
            (Except.ok payload) now).1
          = ApiResponse.ok payload)
    ∧ (searchGames σ (some qs) (Except.error emsg) now
        = (ApiResponse.err 500 "Failed to search games",
           (getGameCache σ ("/search/" ++ qs) now).2)
      ∧ mapGet (searchGames σ (some qs) (Except.error emsg) now).2.gameCache
            ("/search/" ++ qs)
          = none
      ∧ (searchGames (searchGames σ (some qs) (Except.error emsg) now).2 (some qs)
            (Except.ok payload) now).1
          = ApiResponse.ok payload) := by
  refine ⟨?_, ?_, ?_⟩
  · have e1 : listGames σ q (Except.error emsg) now
        = (ApiResponse.err 500 "Failed to fetch games",
           (getGameCache σ (listingCacheKey q) now).2) := by
      unfold listGames
      rw [getGameCache_pair σ _ now h1]
    have hms := getGameCache_miss_state σ (listingCacheKey q) now h1
    refine ⟨e1, ?_, ?_⟩
    · rw [e1]
      exact hms
    · rw [e1]
      show (listGames (getGameCache σ (listingCacheKey q) now).2 q (Except.ok payload) now).1
          = ApiResponse.ok payload
      unfold listGames
      rw [getGameCache_none _ _ _ hms]
  · have e2 : getGameDetails σ id (Except.error emsg) now
        = (ApiResponse.err 500 "Failed to fetch game details",
           (getGameCache σ ("/games/" ++ id) now).2) := by
      unfold getGameDetails
      rw [getGameCache_pair σ _ now h2]
    have hms := getGameCache_miss_state σ ("/games/" ++ id) now h2
    refine ⟨e2, ?_, ?_⟩
    · rw [e2]
      exact hms
    · rw [e2]
      show (getGameDetails (getGameCache σ ("/games/" ++ id) now).2 id
          (Except.ok payload) now).1 = ApiResponse.ok payload
      unfold getGameDetails
      rw [getGameCache_none _ _ _ hms]
  · have e3 : searchGames σ (some qs) (Except.error emsg) now
        = (ApiResponse.err 500 "Failed to search games",
           (getGameCache σ ("/search/" ++ qs) now).2) := by
      unfold searchGames
      dsimp only
      rw [if_neg hqs, getGameCache_pair σ _ now h3]
    have hms := getGameCache_miss_state σ ("/search/" ++ qs) now h3
    refine ⟨e3, ?_, ?_⟩
    · rw [e3]
      exact hms
    · rw [e3]
      show (searchGames (getGameCache σ ("/search/" ++ qs) now).2 (some qs)
          (Except.ok payload) now).1 = ApiResponse.ok payload
      unfold searchGames
      dsimp only
      rw [if_neg hqs, getGameCache_none _ _ _ hms]

/-- Witness for C4 (amended): a failing fetch on the fresh store yields
the 500 error, leaves the key absent, and a retry with a successful fetch
answers the payload. -/
theorem c4_fetch_failure_witness :
    listGames initialStorage ⟨none, none, none, none, none, none, none⟩
        (Except.error "boom") 0
      = (ApiResponse.err 500 "Failed to fetch games",
         (getGameCache initialStorage
           (listingCacheKey ⟨none, none, none, none, none, none, none⟩) 0).2)
    ∧ mapGet (listGames initialStorage ⟨none, none, none, none, none, none, none⟩
          (Except.error "boom") 0).2.gameCache
        (listingCacheKey ⟨none, none, none, none, none, none, none⟩) = none
    ∧ (listGames (listGames initialStorage ⟨none, none, none, none, none, none, none⟩
          (Except.error "boom") 0).2 ⟨none, none, none, none, none, none, none⟩
          (Except.ok "P") 0).1 = ApiResponse.ok "P" :=
  (c4_fetch_failure initialStorage ⟨none, none, none, none, none, none, none⟩
    "42" "mario" "boom" "P" 0 rfl rfl rfl (by decide)).1

end GameMagic
